import Mathlib

/-!
Verification development for the featherflow-crawler repository.

This file gives a shallow embedding, in Lean 4, of the crawl-orchestration
core of the repository:

* `app/crawler/block_detector.py` — the block/anti-bot classifier;
* `app/crawler/hn_crawler.py` — the exponential backoff policy, the
  pagination-URL derivation and the per-keyword crawl orchestrator;
* `app/web/task_manager.py` — the thread-safe task registry (statuses,
  bounded logs, results);
* `app/web/routes.py` — the cancel endpoint's core logic;
* `app/web/app.py` — the worker loop that executes one job.

Python machine-independent integers are modelled as `Int`/`Nat`; fallible
operations return explicit outcome types; the worker's interaction with
other threads is modelled by an explicit event function applied at keyword
boundaries.  Side effects of the crawler (network fetches, sleeps, database
upserts) are reified into an effect trace so that frame conditions ("no
fetch happens") are provable.  All definitions are executable.
-/

/- ===== Generic string helpers (Python `in`, `strip`, slicing) ===== -/

/-- `listHasSub needle hay` is Python's `needle in hay` on strings,
expressed on character lists. -/
def listHasSub : List Char → List Char → Bool
  | needle, [] => needle.isEmpty
  | needle, c :: rest => needle.isPrefixOf (c :: rest) || listHasSub needle rest

/-- Python's substring test `needle in hay`. -/
def strContains (hay needle : String) : Bool :=
  listHasSub needle.toList hay.toList

/-- Python's `lst[-(k):]`.  For `k = 0` the slice `lst[-0:]` is `lst[0:]`,
i.e. the whole list; for `k > 0` it is the last `min k (length lst)`
elements. -/
def pySliceLast (k : Nat) (xs : List String) : List String :=
  if k = 0 then xs else xs.drop (xs.length - k)

/-- Python's `str.strip()` (whitespace removed at both ends). -/
def pyStrip (s : String) : String :=
  String.mk
    (((s.toList.dropWhile Char.isWhitespace).reverse.dropWhile
        Char.isWhitespace).reverse)

/-- Python's `str.rstrip("/")` on a character list. -/
def rstripSlashes (xs : List Char) : List Char :=
  (xs.reverse.dropWhile (fun c => c = '/')).reverse

/-- Python's `s[: s.rfind("-") + 1]`: everything up to and including the
last `'-'`; the empty list when no `'-'` occurs (`rfind` returns `-1`). -/
def keepThroughLastDash (xs : List Char) : List Char :=
  (xs.reverse.dropWhile (fun c => c ≠ '-')).reverse

/-- Python's `str.isdigit()` restricted to ASCII digits (the hrefs under
consideration are ASCII): non-empty and all digits. -/
def pyIsDigit (xs : List Char) : Bool :=
  !xs.isEmpty && xs.all Char.isDigit

/- ===== app/crawler/block_detector.py ===== -/

/-- `BlockDecision` from `block_detector.py`. -/
structure BlockDecision where
  blocked : Bool
  reason : String
deriving DecidableEq, Repr

/-- `_SUSPECT_TEXT` from `block_detector.py`, in source order (the order is
the tie-break for `suspect_text:<token>`). -/
def SUSPECT_TEXT : List String :=
  ["验证码", "安全验证", "安全校验", "人机", "访问异常",
   "请求过于频繁", "系统检测到", "请完成验证", "您的访问行为异常"]

/-- `_NO_DATA_HINT` from `block_detector.py`. -/
def NO_DATA_HINT : List String :=
  ["暂无行情", "没有找到", "market-null", "market-none"]

/-- The html-content part of `detect_blocked` (everything after the status
code test).  `html = none` models Python `None`; `some ""` and `none` are
both falsy for `if not html`. -/
def detectHtml (html : Option String) : BlockDecision :=
  match html with
  | none => { blocked := true, reason := "empty_html" }
  | some h =>
    if h = "" then { blocked := true, reason := "empty_html" }
    else if strContains h "market-list-item" && strContains h "quotation-content" then
      { blocked := false, reason := "ok" }
    else if NO_DATA_HINT.any (fun t => strContains h t) then
      { blocked := false, reason := "no_data" }
    else
      match SUSPECT_TEXT.find? (fun t => strContains h t) with
      | some t => { blocked := true, reason := "suspect_text:" ++ t }
      | none => { blocked := true, reason := "no_list_items" }

/-- `detect_blocked(html, status_code)` from `block_detector.py`.
`status_code in (403, 429)` is checked first; `None` is never a member. -/
def detect_blocked (html : Option String) (status_code : Option Int) : BlockDecision :=
  match status_code with
  | some c =>
    if c = 403 ∨ c = 429 then
      { blocked := true, reason := "http_status_" ++ toString c }
    else detectHtml html
  | none => detectHtml html

/- ===== app/crawler/hn_crawler.py : backoff policy ===== -/

/-- `_backoff_seconds(base, max_seconds, attempt)` from `hn_crawler.py`:
exponential backoff with a cap; a non-positive base is floored to 1. -/
def _backoff_seconds (base max_seconds : Int) (attempt : Nat) : Int :=
  let b := if base ≤ 0 then 1 else base
  min (b * 2 ^ attempt) (max max_seconds 1)

/-- The backoff formula exactly as the specification words it
(`Result = min(base' × 2^attempt, max(cap, 1))`, `base'` = base floored
to 1 when non-positive); kept separate from `_backoff_seconds` so the two
can be compared. -/
def backoff_spec (attempt : Nat) (base cap : Int) : Int :=
  let base' := if base ≤ 0 then 1 else base
  min (base' * 2 ^ attempt) (max cap 1)

/- ===== app/crawler/hn_crawler.py : pagination derivation ===== -/

/-- Python's `x or 1` for an int (`0` is falsy). -/
def pyOrOne (n : Int) : Int := if n = 0 then 1 else n

/-- Split a character list at the first occurrence of `c`, if any. -/
def splitFirst (c : Char) : List Char → Option (List Char × List Char)
  | [] => none
  | x :: rest =>
    if x = c then some ([], rest)
    else (splitFirst c rest).map (fun p => (x :: p.1, p.2))

/-- `urllib.parse.parse_qsl(query, keep_blank_values=True)`:
`&`-separated chunks, each split at its first `=`; chunks without `=` and
empty chunks are dropped.  Percent-decoding is not modelled (the derived
URLs under verification never depend on it: decoding and the re-encoding
in `urlencode` cancel). -/
def parse_qsl (q : List Char) : List (List Char × List Char) :=
  (q.splitOn '&').filterMap (fun chunk =>
    if chunk.isEmpty then none else splitFirst '=' chunk)

/-- Python `dict` update `d[k] = v`: replace in place if the key exists
(keeping its position), else append. -/
def dictUpsert (k v : List Char) (d : List (List Char × List Char)) :
    List (List Char × List Char) :=
  if d.any (fun p => p.1 = k) then
    d.map (fun p => if p.1 = k then (k, v) else p)
  else d ++ [(k, v)]

/-- Python `dict(pairs)`: last value wins, first-insertion order kept. -/
def dictOfPairs (ps : List (List Char × List Char)) : List (List Char × List Char) :=
  ps.foldl (fun d p => dictUpsert p.1 p.2 d) []

/-- `urllib.parse.urlencode(d, doseq=True)` without percent-encoding
(see `parse_qsl`). -/
def encodeQuery (d : List (List Char × List Char)) : List Char :=
  List.intercalate ['&'] (d.map (fun p => p.1 ++ '=' :: p.2))

/-- The pager-anchor condition of `_derive_page_urls`:
`"cdlist-" in href and href.rstrip("/").split("-")[-1].isdigit()`,
applied to the already-stripped href (empty hrefs are skipped by the
source's `continue`, and fail this test anyway). -/
def isPagerTemplate (h : String) : Bool :=
  h ≠ "" && strContains h "cdlist-" &&
    pyIsDigit (((rstripSlashes h.toList).splitOn '-').getLastD [])

/-- The `?k=` query fallback of `_derive_page_urls` (tier (b)): when the
first page URL carries a `k` query parameter, synthesize `page=<n>`
variants; otherwise (tier (c)) just the first URL. -/
def queryFallback (first_url : String) (total : Nat) : List String :=
  match splitFirst '?' first_url.toList with
  | none => [first_url]
  | some (base, query) =>
    let q := dictOfPairs (parse_qsl query)
    if q.any (fun p => p.1 = "k".toList) then
      (List.range total).map (fun i =>
        let q2 := dictUpsert "page".toList (toString (i + 1)).toList q
        String.mk base ++ "?" ++ String.mk (encodeQuery q2))
    else [first_url]

/-- `_derive_page_urls(first_url, first_html, total_pages)` from
`hn_crawler.py`.  The only use the source makes of `first_html` is the
CSS query `.quotation-paging .eye-pager a.number[href]`; that extraction
step is abstracted, so this function takes the extracted pager hrefs
directly.  Everything after the extraction is embedded: the first
stripped href matching the `cdlist` pattern fixes the URL template (its
trailing numeric segment is replaced by the page number), else the `?k=`
page-parameter fallback, else the single first-page URL. -/
def derive_page_urls (pagerHrefs : List String) (first_url : String)
    (total_pages : Int) : List String :=
  let total : Nat := (max (pyOrOne total_pages) 1).toNat
  if total = 1 then [first_url]
  else
    match (pagerHrefs.map pyStrip).find? isPagerTemplate with
    | some h =>
      let stem := keepThroughLastDash (rstripSlashes h.toList)
      (List.range total).map (fun i =>
        "https://www.cnhnb.com" ++ String.mk stem ++ toString (i + 1) ++ "/")
    | none => queryFallback first_url total

/- ===== app/crawler/hn_crawler.py : orchestrator ===== -/

/-- `KeywordCrawlStats` from `hn_crawler.py` (frozen dataclass). -/
structure KeywordCrawlStats where
  keyword : String
  pages_total : Nat
  pages_fetched : Nat
  rows_parsed : Nat
  rows_upserted : Nat
  blocked : Bool
  blocked_reason : Option String
deriving DecidableEq, Repr

/-- The crawler settings consumed by `crawl_keyword` (`app/config.py`
fields `blocked_max_retry`, `backoff_base_seconds`, `backoff_max_seconds`). -/
structure CrawlSettings where
  blocked_max_retry : Nat
  backoff_base_seconds : Int
  backoff_max_seconds : Int
deriving DecidableEq, Repr

/-- Reified side effects of one `crawl_keyword` run, in order.
`fetchPage url` stands for one `_fetch_page_html(url)` call — the single
entry point to both the direct (HTTP) and the rendered (Playwright) fetch
paths; `sleep s` for `time.sleep(s)`; `upsertRows n` for an
`upsert_rows` call saving `n` rows. -/
inductive CrawlEffect where
  | fetchPage (url : String)
  | sleep (seconds : Int)
  | upsertRows (count : Nat)
deriving DecidableEq, Repr

/-- Environment of one `crawl_keyword` run.  The collaborators the
orchestrator calls are abstracted as oracles:
`existsToday` is `exists_today(pool, keyword, today)`;
`fetch n` is the result `(html, status_code, reason)` of the `n`-th
`_fetch_page_html` call of this run (the UA-rotation and
HTTP/Playwright escalation state live behind this oracle);
`quoteKw` is `urllib.parse.quote`;
`pagerHrefs html` is the pager-anchor extraction
(`soup.select(".quotation-paging .eye-pager a.number[href]")`);
`extractTotalPages` is `parser.extract_total_pages` (`None` ↦ `none`);
`parseRowCount html` is `len(parse_market_list(html))` — row contents are
irrelevant to the orchestrator's bookkeeping, only the count feeds the
statistics and the empty-page stop. -/
structure CrawlEnv where
  existsToday : Bool
  fetch : Nat → String × Int × String
  quoteKw : String → String
  pagerHrefs : String → List String
  extractTotalPages : String → Option Int
  parseRowCount : String → Nat

/-- `_build_search_url(keyword)` from `hn_crawler.py`. -/
def build_search_url (quoteKw : String → String) (keyword : String) : String :=
  "https://www.cnhnb.com/hangqing/?k=" ++ quoteKw keyword

/-- The bounded first-page retry loop of `crawl_keyword`
(`for attempt in range(blocked_max_retry + 1)`).  Arguments:
`remaining` attempts left, current `attempt` number, `callIdx` the index
of the next `_fetch_page_html` call, `lastReason` the reason recorded by
the previous blocked attempt.  Returns
`(first_html?, blocked_reason, effects, next callIdx)`: `first_html?` is
`some html` on the first non-blocked attempt (whereupon the recorded
reason is reset to `none`, as the source sets `blocked_reason = None`),
`none` when every attempt was blocked. -/
def firstPageLoop (env : CrawlEnv) (s : CrawlSettings) (url : String) :
    (remaining attempt callIdx : Nat) → (lastReason : Option String) →
    Option String × Option String × List CrawlEffect × Nat
  | 0, _, callIdx, lastReason => (none, lastReason, [], callIdx)
  | remaining + 1, attempt, callIdx, _ =>
    let (html, status, reason) := env.fetch callIdx
    let decision := detect_blocked (some html) (some status)
    if !decision.blocked then
      (some html, none, [.fetchPage url], callIdx + 1)
    else
      let sec := _backoff_seconds s.backoff_base_seconds s.backoff_max_seconds attempt
      let (res, lastR, effs, ci) :=
        firstPageLoop env s url remaining (attempt + 1) (callIdx + 1) (some reason)
      (res, lastR, .fetchPage url :: .sleep sec :: effs, ci)

/-- The per-page loop of `crawl_keyword` (`for page_idx, page_url in
enumerate(page_urls, start=1)`).  Page 1 reuses the already-fetched first
page (`first_html`); later pages are fetched and, when their fetch is
judged blocked, the whole keyword terminates after a single fixed
backoff (`attempt = 0`).  A page parsing to zero rows stops pagination
without error.  Accumulators `pf`/`rp`/`ru` are `pages_fetched`,
`rows_parsed`, `rows_upserted`. -/
def pageLoop (env : CrawlEnv) (s : CrawlSettings) (kw first_html : String)
    (total : Nat) :
    (urls : List String) → (pageIdx callIdx pf rp ru : Nat) →
    KeywordCrawlStats × List CrawlEffect
  | [], _, _, pf, rp, ru =>
    ({ keyword := kw, pages_total := total, pages_fetched := pf,
       rows_parsed := rp, rows_upserted := ru,
       blocked := false, blocked_reason := none }, [])
  | page_url :: rest, pageIdx, callIdx, pf, rp, ru =>
    let fetched : Option (String × List CrawlEffect × Nat) :=
      if pageIdx = 1 then some (first_html, [], callIdx)
      else
        let (html, status, _) := env.fetch callIdx
        let decision := detect_blocked (some html) (some status)
        if decision.blocked then none
        else some (html, [.fetchPage page_url], callIdx + 1)
    match fetched with
    | none =>
      let reason := (env.fetch callIdx).2.2
      let sec := _backoff_seconds s.backoff_base_seconds s.backoff_max_seconds 0
      ({ keyword := kw, pages_total := total, pages_fetched := pf,
         rows_parsed := rp, rows_upserted := ru,
         blocked := true, blocked_reason := some reason },
       [.fetchPage page_url, .sleep sec])
    | some (html, effs, callIdx') =>
      let pf := pf + 1
      let n := env.parseRowCount html
      if n = 0 then
        ({ keyword := kw, pages_total := total, pages_fetched := pf,
           rows_parsed := rp, rows_upserted := ru,
           blocked := false, blocked_reason := none }, effs)
      else
        let rp := rp + n
        let ru := ru + n
        let (stats, effs') :=
          pageLoop env s kw first_html total rest (pageIdx + 1) callIdx' pf rp ru
        (stats, effs ++ .upsertRows n :: effs')

/-- `HnCrawler.crawl_keyword(keyword)` from `hn_crawler.py`, returning the
statistics together with the reified effect trace.  Structure mirrors the
source: today-skip short-circuit; bounded first-page retry with
exponential backoff; pagination derivation from the first page; per-page
fetch/parse/upsert loop.  (The random re-seeding of the UA index touches
only state hidden behind the `fetch` oracle.) -/
def crawl_keyword (env : CrawlEnv) (s : CrawlSettings) (keyword : String) :
    KeywordCrawlStats × List CrawlEffect :=
  if env.existsToday then
    ({ keyword := keyword, pages_total := 0, pages_fetched := 0,
       rows_parsed := 0, rows_upserted := 0,
       blocked := false, blocked_reason := none }, [])
  else
    let first_url := build_search_url env.quoteKw keyword
    let (firstHtml?, blocked_reason, effs, callIdx) :=
      firstPageLoop env s first_url (s.blocked_max_retry + 1) 0 0 none
    match firstHtml? with
    | none =>
      ({ keyword := keyword, pages_total := 0, pages_fetched := 0,
         rows_parsed := 0, rows_upserted := 0,
         blocked := true, blocked_reason := blocked_reason }, effs)
    | some first_html =>
      let total_pages := pyOrOne ((env.extractTotalPages first_html).getD 1)
      let page_urls := derive_page_urls (env.pagerHrefs first_html) first_url total_pages
      let total := page_urls.length
      let (stats, effs') :=
        pageLoop env s keyword first_html total page_urls 1 callIdx 0 0 0
      (stats, effs ++ effs')

/- ===== Python call semantics for `crawl_keyword` ===== -/

/-- The declared (non-`self`) parameter names of
`HnCrawler.crawl_keyword(self, keyword)`; the method declares no
`**kwargs`. -/
def crawl_keyword_param_names : List String := ["keyword"]

/-- Outcome of a Python method call: a value, or an immediate `TypeError`
for a keyword argument that matches no declared parameter. -/
inductive PyCall (α : Type) where
  | ok (val : α)
  | typeError (unexpectedKwarg : String)
deriving DecidableEq, Repr

/-- A call `crawler.crawl_keyword(kw, **kwargs)` under Python calling
semantics: any keyword argument whose name is not a declared parameter
raises `TypeError` before the body runs; naming the positionally-bound
`keyword` again raises `TypeError` for multiple values. -/
def call_crawl_keyword (env : CrawlEnv) (s : CrawlSettings) (kw : String)
    (kwargs : List (String × Bool)) : PyCall (KeywordCrawlStats × List CrawlEffect) :=
  match kwargs.find? (fun p => !(crawl_keyword_param_names.contains p.1)) with
  | some p => .typeError p.1
  | none =>
    if kwargs.any (fun p => p.1 == "keyword") then .typeError "keyword"
    else .ok (crawl_keyword env s kw)

/- ===== app/web/task_manager.py ===== -/

/-- `TaskStatus` from `task_manager.py`. -/
inductive TaskStatus where
  | pending
  | running
  | completed
  | failed
  | cancelled
deriving DecidableEq, Repr

/-- The terminal statuses, `(COMPLETED, FAILED, CANCELLED)`. -/
def TaskStatus.isTerminal : TaskStatus → Bool
  | .completed => true
  | .failed => true
  | .cancelled => true
  | _ => false

/-- `KeywordCrawlResult` from `task_manager.py` (the web-side copy of the
crawler's statistics). -/
structure KeywordCrawlResult where
  keyword : String
  pages_total : Nat
  pages_fetched : Nat
  rows_parsed : Nat
  rows_upserted : Nat
  blocked : Bool
  blocked_reason : Option String
deriving DecidableEq, Repr

/-- The field-by-field conversion `KeywordCrawlResult(keyword=stats.keyword,
...)` performed by `TaskWorker._execute_task` (`app.py` lines 105–113). -/
def statsToResult (stats : KeywordCrawlStats) : KeywordCrawlResult :=
  { keyword := stats.keyword
    pages_total := stats.pages_total
    pages_fetched := stats.pages_fetched
    rows_parsed := stats.rows_parsed
    rows_upserted := stats.rows_upserted
    blocked := stats.blocked
    blocked_reason := stats.blocked_reason }

/-- `TaskInfo` from `task_manager.py`.  `datetime` values are abstracted
to `Nat` tick counts (no claim under verification compares clock
values). -/
structure TaskInfo where
  task_id : String
  keywords : List String
  status : TaskStatus
  created_at : Nat
  started_at : Option Nat
  completed_at : Option Nat
  current_keyword : Option String
  keyword_index : Nat
  total_keywords : Nat
  force_restart : Bool
  logs : List String
  results : List KeywordCrawlResult
  error : Option String
deriving DecidableEq, Repr

/-- The state of a `TaskManager`: the insertion-ordered `_tasks` dict
(modelled as an association list, as Python dicts preserve insertion
order) plus the two configured bounds. -/
structure TaskManagerState where
  tasks : List (String × TaskInfo)
  max_stored_logs : Nat
  max_stored_tasks : Nat
deriving DecidableEq, Repr

/-- `self._tasks.get(task_id)`. -/
def tmGet (tm : TaskManagerState) (task_id : String) : Option TaskInfo :=
  (tm.tasks.find? (fun p => p.1 == task_id)).map (fun p => p.2)

/-- In-place mutation of the task stored under `task_id` (Python mutates
the `TaskInfo` object held by the dict; the dict's key order is
unchanged). -/
def tmReplace (tm : TaskManagerState) (task_id : String) (t : TaskInfo) :
    TaskManagerState :=
  { tm with tasks := tm.tasks.map (fun p => if p.1 == task_id then (p.1, t) else p) }

/-- The pure per-task update performed by `update_task_status` once the
task is found: set `status` unconditionally, overwrite the optional
fields only when given, then maintain the write-once timestamps exactly
as the source's `if/elif` does. -/
def applyStatusUpdate (t : TaskInfo) (now : Nat) (status : TaskStatus)
    (current_keyword : Option String) (keyword_index : Option Nat)
    (error : Option String) : TaskInfo :=
  let t := { t with status := status }
  let t := match current_keyword with
           | some v => { t with current_keyword := some v }
           | none => t
  let t := match keyword_index with
           | some v => { t with keyword_index := v }
           | none => t
  let t := match error with
           | some v => { t with error := some v }
           | none => t
  if status = .running ∧ t.started_at = (none : Option Nat) then
    { t with started_at := some now }
  else if status = .completed ∨ status = .failed ∨ status = .cancelled then
    if t.completed_at = (none : Option Nat) then { t with completed_at := some now } else t
  else t

/-- `TaskManager.update_task_status` from `task_manager.py`: `False` and
no change for an unknown id; otherwise apply `applyStatusUpdate`. -/
def update_task_status (tm : TaskManagerState) (now : Nat) (task_id : String)
    (status : TaskStatus) (current_keyword : Option String)
    (keyword_index : Option Nat) (error : Option String) :
    Bool × TaskManagerState :=
  match tmGet tm task_id with
  | none => (false, tm)
  | some t =>
    (true, tmReplace tm task_id
      (applyStatusUpdate t now status current_keyword keyword_index error))

/-- The log-compaction-then-append policy of `TaskManager.append_log`,
on the log list itself: when the log has reached the configured cap,
keep only `logs[-(cap // 2):]` before appending the new line. -/
def append_log_list (cap : Nat) (logs : List String) (message : String) :
    List String :=
  (if cap ≤ logs.length then pySliceLast (cap / 2) logs else logs) ++ [message]

/-- `TaskManager.append_log` from `task_manager.py`. -/
def append_log (tm : TaskManagerState) (task_id : String) (message : String) :
    Bool × TaskManagerState :=
  match tmGet tm task_id with
  | none => (false, tm)
  | some t =>
    (true, tmReplace tm task_id
      { t with logs := append_log_list tm.max_stored_logs t.logs message })

/-- `TaskManager.add_result` from `task_manager.py`. -/
def add_result (tm : TaskManagerState) (task_id : String)
    (result : KeywordCrawlResult) : Bool × TaskManagerState :=
  match tmGet tm task_id with
  | none => (false, tm)
  | some t =>
    (true, tmReplace tm task_id { t with results := t.results ++ [result] })

/- ===== app/web/routes.py : cancel endpoint core ===== -/

/-- Outcome of `POST /api/tasks/<id>/cancel` (`routes.py`): 404 for an
unknown task, 400 when the task is not `Pending`/`Running`, else the task
is marked cancelled. -/
inductive CancelResponse where
  | notFound
  | badStatus
  | cancelled
deriving DecidableEq, Repr

/-- The core of `cancel_task` from `routes.py`: look the task up; refuse
unless its status is in `(PENDING, RUNNING)`; otherwise update the status
to `CANCELLED` and append the cancellation log line. -/
def cancel_task (tm : TaskManagerState) (now : Nat) (task_id : String) :
    CancelResponse × TaskManagerState :=
  match tmGet tm task_id with
  | none => (.notFound, tm)
  | some t =>
    if t.status ≠ .pending ∧ t.status ≠ .running then (.badStatus, tm)
    else
      let (_, tm1) := update_task_status tm now task_id .cancelled none none none
      let (_, tm2) := append_log tm1 task_id "任务已被用户取消"
      (.cancelled, tm2)

/- ===== app/web/app.py : TaskWorker._execute_task ===== -/

/-- The worker's per-keyword "done" log line (`app.py` lines 118–123).
`fmtOpt` renders Python's f-string of an optional as `str` does
(`None` for `none`). -/
def fmtOpt : Option String → String
  | some s => s
  | none => "None"

/-- Log line for a finished keyword. -/
def doneMsg (idx n : Nat) (kw : String) (stats : KeywordCrawlStats) : String :=
  let base := "[" ++ toString (idx + 1) ++ "/" ++ toString n ++ "] " ++ kw ++ " 完成"
  if stats.blocked then
    base ++ "（被拦截：" ++ fmtOpt stats.blocked_reason ++ "）"
  else
    base ++ "（" ++ toString stats.pages_fetched ++ "/" ++ toString stats.pages_total
         ++ " 页，" ++ toString stats.rows_upserted ++ " 条数据）"

/-- Log line for a keyword whose crawl raised (`app.py` line 130); the
exception text for the `TypeError` raised by the unexpected keyword
argument is summarized by the argument name. -/
def failMsg (idx n : Nat) (kw arg : String) : String :=
  "[" ++ toString (idx + 1) ++ "/" ++ toString n ++ "] " ++ kw
      ++ " 失败：crawl_keyword() got an unexpected keyword argument " ++ arg

/-- The keyword loop of `TaskWorker._execute_task` (`app.py` lines
81–131) followed by its final status update (lines 133–146).

Other threads (the HTTP cancel endpoint, `worker.stop()`) interleave with
the loop; the spec's state machine polls cancellation at keyword
boundaries, so cross-thread activity is modelled by `external idx`,
applied to the registry when iteration `idx` begins, and by the sampled
worker-shutdown flag `runningFlag idx` (`self._running`).  Each keyword's
crawl is the Python call
`crawler.crawl_keyword(keyword, force_restart=force_restart)` of
`app.py` line 102, under `call_crawl_keyword`'s calling semantics, run
against the per-keyword environment `envs idx` (a fresh `HnCrawler` is
constructed per keyword). -/
def execLoop (cs : CrawlSettings) (envs : Nat → CrawlEnv)
    (runningFlag : Nat → Bool) (external : Nat → TaskManagerState → TaskManagerState)
    (now : Nat) (task_id : String) (force_restart : Bool) (n : Nat) :
    (kws : List String) → (idx : Nat) → TaskManagerState → TaskManagerState
  | [], _, tm =>
    -- error is initialized to None and never assigned in the loop, so the
    -- final status is always COMPLETED (app.py lines 78-79, 133-146)
    let error : Option String := none
    let final_status : TaskStatus := if error ≠ none then .failed else .completed
    let final_msg : String :=
      if error ≠ none then "任务失败：" ++ fmtOpt error
      else "任务完成，共处理 " ++ toString n ++ " 个关键词"
    let (_, tm1) := update_task_status tm now task_id final_status none (some n) error
    let (_, tm2) := append_log tm1 task_id final_msg
    tm2
  | kw :: rest, idx, tm =>
    let tm := external idx tm
    if !(runningFlag idx) then
      let (_, tm1) := update_task_status tm now task_id .cancelled none none none
      let (_, tm2) := append_log tm1 task_id "任务已取消"
      tm2
    else
      let (_, tm1) := update_task_status tm now task_id .running (some kw) (some idx) none
      let (_, tm2) := append_log tm1 task_id
        ("[" ++ toString (idx + 1) ++ "/" ++ toString n ++ "] 开始爬取关键词：" ++ kw)
      match call_crawl_keyword (envs idx) cs kw [("force_restart", force_restart)] with
      | .ok (stats, _) =>
        let result := statsToResult stats
        let (_, tm3) := add_result tm2 task_id result
        let (_, tm4) := append_log tm3 task_id (doneMsg idx n kw stats)
        execLoop cs envs runningFlag external now task_id force_restart n rest (idx + 1) tm4
      | .typeError arg =>
        let (_, tm3) := append_log tm2 task_id (failMsg idx n kw arg)
        execLoop cs envs runningFlag external now task_id force_restart n rest (idx + 1) tm3

/-- `TaskWorker._execute_task(task)` from `app.py`: mark the job
`RUNNING`, log the start line, then run the keyword loop. -/
def executeTask (cs : CrawlSettings) (envs : Nat → CrawlEnv)
    (runningFlag : Nat → Bool) (external : Nat → TaskManagerState → TaskManagerState)
    (now : Nat) (tm : TaskManagerState) (task : TaskInfo) : TaskManagerState :=
  let n := task.keywords.length
  let restart_mode := if task.force_restart then "重新爬取" else "断点续爬"
  let (_, tm1) := update_task_status tm now task.task_id .running none (some 0) none
  let (_, tm2) := append_log tm1 task.task_id
    ("任务开始执行（" ++ restart_mode ++ "），共 " ++ toString n ++ " 个关键词")
  execLoop cs envs runningFlag external now task.task_id task.force_restart n
    task.keywords 0 tm2

/- ===== Shared concrete fixtures and helper lemmas ===== -/

/-- A crawl environment in which storage already has today's data. -/
def envSkip : CrawlEnv :=
  { existsToday := true
    fetch := fun _ => ("", 200, "http_ok")
    quoteKw := fun s => s
    pagerHrefs := fun _ => []
    extractTotalPages := fun _ => none
    parseRowCount := fun _ => 0 }

/-- A crawl environment in which every fetch is judged blocked
(HTTP 403 on every attempt). -/
def envAllBlocked : CrawlEnv :=
  { existsToday := false
    fetch := fun _ => ("denied", 403, "http_blocked:http_status_403")
    quoteKw := fun s => s
    pagerHrefs := fun _ => []
    extractTotalPages := fun _ => none
    parseRowCount := fun _ => 0 }

/-- The default backoff/retry settings of `app/config.py`
(`BLOCKED_MAX_RETRY=2`, `BACKOFF_BASE_SECONDS=10`, `BACKOFF_MAX_SECONDS=600`). -/
def defaultCrawlSettings : CrawlSettings :=
  { blocked_max_retry := 2, backoff_base_seconds := 10, backoff_max_seconds := 600 }

/- ===== C6 : backoff policy ===== -/

/-- C6: `_backoff_seconds(base, cap, attempt)` equals the specification's
formula `min(base' * 2^attempt, max(cap, 1))` with `base'` the base
floored to 1 when non-positive; it is monotone non-decreasing in the
attempt; `backoff(0,10,600) = 10`, `backoff(3,10,600) = 80`,
`backoff(10,10,600) = 600`; and with base 10 and cap 600 it never
exceeds 600. -/
theorem backoff_policy_correct :
    (∀ (base cap : Int) (attempt : Nat),
        _backoff_seconds base cap attempt = backoff_spec attempt base cap) ∧
    (∀ (base cap : Int) (a a' : Nat), a ≤ a' →
        _backoff_seconds base cap a ≤ _backoff_seconds base cap a') ∧
    _backoff_seconds 10 600 0 = 10 ∧
    _backoff_seconds 10 600 3 = 80 ∧
    _backoff_seconds 10 600 10 = 600 ∧
    (∀ a : Nat, _backoff_seconds 10 600 a ≤ 600) := by
  refine ⟨fun _ _ _ => rfl, ?_, by decide, by decide, by decide, ?_⟩
  · intro base cap a a' h
    show min ((if base ≤ 0 then 1 else base) * 2 ^ a) (max cap 1) ≤
         min ((if base ≤ 0 then 1 else base) * 2 ^ a') (max cap 1)
    have hb : (0 : Int) ≤ (if base ≤ 0 then 1 else base) := by split <;> omega
    exact min_le_min
      (mul_le_mul_of_nonneg_left (pow_le_pow_right₀ (by norm_num) h) hb) le_rfl
  · intro a
    show min ((if (10 : Int) ≤ 0 then 1 else 10) * 2 ^ a) (max 600 1) ≤ 600
    exact le_trans (min_le_right _ _) (by norm_num)

/-- Witness for C6's hypotheses, instantiated at attempts `2 ≤ 3`. -/
theorem backoff_policy_correct_witness :
    _backoff_seconds 10 600 2 ≤ _backoff_seconds 10 600 3 :=
  backoff_policy_correct.2.1 10 600 2 3 (by decide)

/- ===== C8 : no-data carve-out precedes the suspect-text scan ===== -/

/-- C8: for non-empty html that does not contain both the list-item and
content markers, with a status code outside {403, 429}, the presence of
any no-data marker makes `detect_blocked` return not-blocked with reason
`no_data` — regardless of any suspect-text tokens also present, since the
no-data check runs first. -/
theorem no_data_checked_before_suspect_text
    (h : String) (status : Option Int)
    (hne : h ≠ "")
    (h403 : status ≠ some 403) (h429 : status ≠ some 429)
    (hlist : ¬(strContains h "market-list-item" = true ∧
               strContains h "quotation-content" = true))
    (hnodata : NO_DATA_HINT.any (fun t => strContains h t) = true) :
    detect_blocked (some h) status = { blocked := false, reason := "no_data" } := by
  have hmarks : (strContains h "market-list-item" &&
                 strContains h "quotation-content") = false := by
    rcases hb : strContains h "market-list-item" with _ | _ <;>
      rcases hc : strContains h "quotation-content" with _ | _ <;>
      simp_all
  have hbody : detectHtml (some h) = { blocked := false, reason := "no_data" } := by
    simp only [detectHtml]
    rw [if_neg hne, if_neg (by simp [hmarks]), if_pos hnodata]
  cases status with
  | none => simpa [detect_blocked] using hbody
  | some c =>
    have hc : ¬(c = 403 ∨ c = 429) := by
      rintro (rfl | rfl)
      · exact h403 rfl
      · exact h429 rfl
    simp only [detect_blocked]
    rw [if_neg hc]
    exact hbody

/-- Witness for C8: html that contains both a no-data marker and a
suspect-text token, with status 200, classified `no_data`. -/
theorem no_data_checked_before_suspect_text_witness :
    detect_blocked (some "暂无行情，请完成验证") (some 200) =
      { blocked := false, reason := "no_data" } :=
  no_data_checked_before_suspect_text "暂无行情，请完成验证" (some 200)
    (by decide) (by decide) (by decide) (by decide) (by decide)

/- ===== C9 : today-skip short-circuit ===== -/

/-- C9: when storage already holds today's data for the keyword,
`crawl_keyword` returns immediately with zero statistics and
`blocked = false`, and its effect trace is empty — no `_fetch_page_html`
call (hence neither the direct nor the rendered fetch path) and no
upsert. -/
theorem skip_when_exists_today (env : CrawlEnv) (s : CrawlSettings)
    (kw : String) (htoday : env.existsToday = true) :
    crawl_keyword env s kw =
      ({ keyword := kw, pages_total := 0, pages_fetched := 0,
         rows_parsed := 0, rows_upserted := 0,
         blocked := false, blocked_reason := none }, []) := by
  unfold crawl_keyword
  rw [if_pos htoday]

/-- Witness for C9 on the concrete skip environment. -/
theorem skip_when_exists_today_witness :
    envSkip.existsToday = true ∧
    crawl_keyword envSkip defaultCrawlSettings "玉米" =
      ({ keyword := "玉米", pages_total := 0, pages_fetched := 0,
         rows_parsed := 0, rows_upserted := 0,
         blocked := false, blocked_reason := none }, []) :=
  ⟨rfl, skip_when_exists_today envSkip defaultCrawlSettings "玉米" rfl⟩

/- ===== C10 : operations on a missing job id ===== -/

/-- C10: `update_task_status`, `append_log` and `add_result` on a job id
absent from the registry return `False` and leave the registry state
completely unchanged. -/
theorem ops_on_missing_id (tm : TaskManagerState) (tid : String)
    (now : Nat) (st : TaskStatus) (ck : Option String) (ki : Option Nat)
    (er : Option String) (msg : String) (r : KeywordCrawlResult)
    (habsent : tmGet tm tid = none) :
    update_task_status tm now tid st ck ki er = (false, tm) ∧
    append_log tm tid msg = (false, tm) ∧
    add_result tm tid r = (false, tm) := by
  unfold update_task_status append_log add_result
  rw [habsent]
  exact ⟨rfl, rfl, rfl⟩

/-- An empty task registry with the default bounds. -/
def emptyTM : TaskManagerState :=
  { tasks := [], max_stored_logs := 1000, max_stored_tasks := 100 }

/-- A placeholder keyword result used by concrete registry scenarios. -/
def sampleResult : KeywordCrawlResult :=
  { keyword := "k", pages_total := 1, pages_fetched := 1, rows_parsed := 3,
    rows_upserted := 3, blocked := false, blocked_reason := none }

/-- Witness for C10 on an empty registry. -/
theorem ops_on_missing_id_witness :
    tmGet emptyTM "nope" = none ∧
    update_task_status emptyTM 0 "nope" .running none none none = (false, emptyTM) :=
  ⟨rfl, (ops_on_missing_id emptyTM "nope" 0 .running none none none "x"
      sampleResult rfl).1⟩

/- ===== C7 : pagination derivation from a pager anchor ===== -/

/-- C7: with `totalPages = 5` and the pager anchor
`/hangqing/cdlist-2001182-0-0-0-0-3/`, the derived page-URL list has
exactly 5 entries: the anchor's text up to and including its last `'-'`
becomes the shared template and the page numbers 1..5 replace the
trailing numeric segment, in ascending order.  The first-page URL
argument is irrelevant in this branch (tier (a) never consults it). -/
theorem pagination_from_pager_anchor :
    (∀ u : String,
      derive_page_urls ["/hangqing/cdlist-2001182-0-0-0-0-3/"] u 5 =
        ["https://www.cnhnb.com/hangqing/cdlist-2001182-0-0-0-0-1/",
         "https://www.cnhnb.com/hangqing/cdlist-2001182-0-0-0-0-2/",
         "https://www.cnhnb.com/hangqing/cdlist-2001182-0-0-0-0-3/",
         "https://www.cnhnb.com/hangqing/cdlist-2001182-0-0-0-0-4/",
         "https://www.cnhnb.com/hangqing/cdlist-2001182-0-0-0-0-5/"]) ∧
    String.mk (keepThroughLastDash
        (rstripSlashes "/hangqing/cdlist-2001182-0-0-0-0-3/".toList)) =
      "/hangqing/cdlist-2001182-0-0-0-0-" ∧
    (∀ u : String,
      derive_page_urls ["/hangqing/cdlist-2001182-0-0-0-0-3/"] u 5 =
        (List.range 5).map (fun i =>
          "https://www.cnhnb.com" ++ "/hangqing/cdlist-2001182-0-0-0-0-"
            ++ toString (i + 1) ++ "/")) := by
  refine ⟨fun u => ?_, by decide, fun u => ?_⟩ <;> rfl

/- ===== C5 : bounded log compaction (corrected) ===== -/

/-- A job whose registry is configured with log cap 1, for the C5
counterexample. -/
def capOneJob : TaskInfo :=
  { task_id := "j", keywords := ["k"], status := .running, created_at := 0,
    started_at := some 1, completed_at := none, current_keyword := none,
    keyword_index := 0, total_keywords := 1, force_restart := false,
    logs := [], results := [], error := none }

/-- Registry holding `capOneJob` with `max_stored_logs = 1`. -/
def capOneTM : TaskManagerState :=
  { tasks := [("j", capOneJob)], max_stored_logs := 1, max_stored_tasks := 100 }

/-- Counterexample to C5 as stated: with configured cap 1, two
`append_log` calls on an existing job leave a log of length 2 — the cap
is exceeded, because the compaction keeps `logs[-(1 // 2):] = logs[-0:]`,
which is the whole list. -/
theorem append_log_cap_one_exceeds_cap :
    ((tmGet (append_log (append_log capOneTM "j" "line1").2 "j" "line2").2 "j").map
        (fun t => t.logs)) = some ["line1", "line2"] ∧
    capOneTM.max_stored_logs = 1 ∧ ¬(2 ≤ 1) := by
  exact ⟨by decide, rfl, by decide⟩

/-- C5 amended: for every configured cap of at least 2 the stated policy
holds — after an `append_log_list` step from any log within the cap, the
length never exceeds the cap and the newest line is the last entry; at
capacity the oldest `cap - cap / 2` entries are discarded first, leaving
`cap / 2` old entries plus the new line; consequently every sequence of
appends starting from the empty log stays within the cap.  (For cap 0 or
1, `logs[-(cap // 2):]` is the whole list and the bound fails, as the
counterexample shows.) -/
theorem append_log_bounded_for_cap_ge_two (cap : Nat) (hcap : 2 ≤ cap) :
    (∀ (logs : List String) (msg : String), logs.length ≤ cap →
       (append_log_list cap logs msg).length ≤ cap ∧
       (append_log_list cap logs msg).getLast? = some msg ∧
       (logs.length = cap →
          append_log_list cap logs msg = logs.drop (cap - cap / 2) ++ [msg] ∧
          (append_log_list cap logs msg).length = cap / 2 + 1)) ∧
    (∀ msgs : List String,
       (msgs.foldl (append_log_list cap) []).length ≤ cap) := by
  have hstep : ∀ (logs : List String) (msg : String), logs.length ≤ cap →
      (append_log_list cap logs msg).length ≤ cap ∧
      (append_log_list cap logs msg).getLast? = some msg ∧
      (logs.length = cap →
        append_log_list cap logs msg = logs.drop (cap - cap / 2) ++ [msg] ∧
        (append_log_list cap logs msg).length = cap / 2 + 1) := by
    intro logs msg hlen
    unfold append_log_list pySliceLast
    by_cases hc : cap ≤ logs.length
    · have hl : logs.length = cap := le_antisymm hlen hc
      have hk : ¬(cap / 2 = 0) := by omega
      rw [if_pos hc, if_neg hk]
      refine ⟨?_, List.getLast?_concat _, fun _ => ⟨by rw [hl], ?_⟩⟩
      · simp only [List.length_append, List.length_drop, List.length_cons,
          List.length_nil]
        omega
      · simp only [List.length_append, List.length_drop, List.length_cons,
          List.length_nil]
        omega
    · rw [if_neg hc]
      refine ⟨?_, List.getLast?_concat _, fun he => absurd he (by omega)⟩
      simp only [List.length_append, List.length_cons, List.length_nil]
      omega
  refine ⟨hstep, fun msgs => ?_⟩
  suffices hgen : ∀ (init : List String), init.length ≤ cap →
      (msgs.foldl (append_log_list cap) init).length ≤ cap by
    exact hgen [] (by simp)
  induction msgs with
  | nil => intro init h; simpa using h
  | cons m ms ih =>
    intro init h
    simpa using ih (append_log_list cap init m) ((hstep init m h).1)

/-- Witness for C5's amended theorem at cap 4, a log at capacity. -/
theorem append_log_bounded_for_cap_ge_two_witness :
    (append_log_list 4 ["a", "b", "c", "d"] "e").length ≤ 4 ∧
    append_log_list 4 ["a", "b", "c", "d"] "e" = ["c", "d", "e"] :=
  ⟨((append_log_bounded_for_cap_ge_two 4 (by decide)).1 ["a", "b", "c", "d"] "e"
      (by decide)).1,
   by decide⟩

/- ===== C1 : forced restart is not accepted by crawl_keyword ===== -/

/-- C1 (code evaluated at the failing input): `HnCrawler.crawl_keyword`
declares no `force_restart` parameter, so the calls
`crawl_keyword(keyword, force_restart=force_restart)` made by
`TaskWorker._execute_task` and `IntegrityChecker.check_and_retry` raise
`TypeError` before the body runs — the forced-restart flag never reaches
(let alone bypasses) the "already has today's data" short-circuit.  A
plain positional call (as `main.py` makes) does run the crawl. -/
theorem force_restart_kwarg_raises_type_error :
    (∀ (env : CrawlEnv) (s : CrawlSettings) (kw : String) (b : Bool),
       call_crawl_keyword env s kw [("force_restart", b)] =
         .typeError "force_restart") ∧
    (∀ (env : CrawlEnv) (s : CrawlSettings) (kw : String),
       call_crawl_keyword env s kw [] = .ok (crawl_keyword env s kw)) := by
  exact ⟨fun _ _ _ _ => rfl, fun _ _ _ => rfl⟩

/- ===== Registry helper lemmas ===== -/

/-- Association-list form of the replace/lookup interaction: when a key
is present, looking it up after the in-place replacement finds the new
value (earlier entries still fail the key test). -/
theorem find?_map_replace (tid : String) (t' : TaskInfo) :
    ∀ (l : List (String × TaskInfo)) (t : TaskInfo),
      (l.find? (fun p => p.1 == tid)).map (fun p => p.2) = some t →
      ((l.map (fun p => if p.1 == tid then (p.1, t') else p)).find?
          (fun p => p.1 == tid)).map (fun p => p.2) = some t' := by
  intro l
  induction l with
  | nil => intro t h; simp [List.find?] at h
  | cons a rest ih =>
    intro t h
    by_cases ha : (a.1 == tid) = true
    · simp only [List.map_cons, List.find?_cons, ha, if_true]
      simp
    · have ha' : (a.1 == tid) = false := by simpa using ha
      rw [List.find?_cons, ha'] at h
      rw [List.map_cons, if_neg (by simp [ha']), List.find?_cons, ha']
      exact ih t h

/-- Replacing the entry found under `tid` makes `tmGet` return the new
task. -/
theorem tmGet_tmReplace (tm : TaskManagerState) (tid : String)
    (t t' : TaskInfo) (h : tmGet tm tid = some t) :
    tmGet (tmReplace tm tid t') tid = some t' := by
  unfold tmGet at h ⊢
  unfold tmReplace
  exact find?_map_replace tid t' tm.tasks t h

/-- `update_task_status` on a present id is the pure record update. -/
theorem update_task_status_found (tm : TaskManagerState) (now : Nat)
    (tid : String) (st : TaskStatus) (ck : Option String) (ki : Option Nat)
    (er : Option String) (t : TaskInfo) (h : tmGet tm tid = some t) :
    update_task_status tm now tid st ck ki er =
      (true, tmReplace tm tid (applyStatusUpdate t now st ck ki er)) := by
  unfold update_task_status
  rw [h]

/-- `append_log` on a present id appends (with compaction) to that job's
log. -/
theorem append_log_found (tm : TaskManagerState) (tid : String)
    (msg : String) (t : TaskInfo) (h : tmGet tm tid = some t) :
    append_log tm tid msg =
      (true, tmReplace tm tid
        { t with logs := append_log_list tm.max_stored_logs t.logs msg }) := by
  unfold append_log
  rw [h]

/-- `add_result` on a present id appends to that job's results. -/
theorem add_result_found (tm : TaskManagerState) (tid : String)
    (r : KeywordCrawlResult) (t : TaskInfo) (h : tmGet tm tid = some t) :
    add_result tm tid r =
      (true, tmReplace tm tid { t with results := t.results ++ [r] }) := by
  unfold add_result
  rw [h]

/-- `tmReplace` keeps the configured log bound. -/
theorem tmReplace_max_stored_logs (tm : TaskManagerState) (tid : String)
    (t : TaskInfo) :
    (tmReplace tm tid t).max_stored_logs = tm.max_stored_logs := rfl

/- ===== C3 : terminal statuses are not protected (corrected) ===== -/

/-- A job already in the terminal status `Completed`. -/
def completedJob : TaskInfo :=
  { task_id := "j", keywords := ["k"], status := .completed, created_at := 0,
    started_at := some 1, completed_at := some 2, current_keyword := none,
    keyword_index := 1, total_keywords := 1, force_restart := false,
    logs := [], results := [], error := none }

/-- A registry holding `completedJob`. -/
def completedTM : TaskManagerState :=
  { tasks := [("j", completedJob)], max_stored_logs := 1000,
    max_stored_tasks := 100 }

/-- Counterexample to C3 as stated: `update_task_status` applies any
requested status unconditionally, so a single `updateStatus` operation
moves a `Completed` job back to `Running`. -/
theorem terminal_status_overwritten :
    (tmGet completedTM "j").map TaskInfo.status = some .completed ∧
    TaskStatus.completed.isTerminal = true ∧
    (tmGet (update_task_status completedTM 7 "j" .running none none none).2 "j").map
        TaskInfo.status = some .running := by
  exact ⟨rfl, rfl, by decide⟩

/-- C3 amended: once a job's status is terminal, `appendLog`, `addResult`
and the HTTP cancel operation leave its status unchanged (cancel refuses
with a 400), but a direct `updateStatus` applies any requested status
unconditionally — the registry itself does not protect terminal states
(only the timestamps are write-once). -/
theorem terminal_status_frame (tm : TaskManagerState) (tid : String)
    (t : TaskInfo) (msg : String) (r : KeywordCrawlResult) (now : Nat)
    (hget : tmGet tm tid = some t) (hterm : t.status.isTerminal = true) :
    (tmGet (append_log tm tid msg).2 tid).map TaskInfo.status = some t.status ∧
    (tmGet (add_result tm tid r).2 tid).map TaskInfo.status = some t.status ∧
    cancel_task tm now tid = (.badStatus, tm) := by
  refine ⟨?_, ?_, ?_⟩
  · rw [append_log_found tm tid msg t hget]
    rw [tmGet_tmReplace tm tid t _ hget]
    rfl
  · rw [add_result_found tm tid r t hget]
    rw [tmGet_tmReplace tm tid t _ hget]
    rfl
  · have hne : t.status ≠ .pending ∧ t.status ≠ .running := by
      cases hs : t.status <;> simp_all [TaskStatus.isTerminal]
    simp only [cancel_task, hget]
    rw [if_pos hne]

/-- Witness for C3's amended theorem on the concrete completed job. -/
theorem terminal_status_frame_witness :
    tmGet completedTM "j" = some completedJob ∧
    completedJob.status.isTerminal = true ∧
    cancel_task completedTM 9 "j" = (.badStatus, completedTM) :=
  ⟨rfl, rfl,
   (terminal_status_frame completedTM "j" completedJob "l" sampleResult 9
      rfl rfl).2.2⟩

/- ===== C4 : first page blocked on every attempt ===== -/

/-- The effect trace the retry loop leaves when every attempt is blocked:
attempt number `attempt` fetches and then sleeps `backoff(attempt)`, for
`remaining` consecutive attempts. -/
def blockedBackoffTrace (s : CrawlSettings) (url : String) :
    (remaining attempt : Nat) → List CrawlEffect
  | 0, _ => []
  | remaining + 1, attempt =>
    .fetchPage url ::
      .sleep (_backoff_seconds s.backoff_base_seconds s.backoff_max_seconds attempt) ::
        blockedBackoffTrace s url remaining (attempt + 1)

/-- `blockedBackoffTrace` in closed form. -/
theorem blockedBackoffTrace_eq_flatMap (s : CrawlSettings) (url : String) :
    ∀ (remaining attempt : Nat),
      blockedBackoffTrace s url remaining attempt =
        (List.range remaining).flatMap (fun j =>
          [.fetchPage url,
           .sleep (_backoff_seconds s.backoff_base_seconds s.backoff_max_seconds
             (attempt + j))]) := by
  intro remaining
  induction remaining with
  | zero => intro attempt; rfl
  | succ n ih =>
    intro attempt
    have hf : (fun j : Nat => [CrawlEffect.fetchPage url,
        CrawlEffect.sleep (_backoff_seconds s.backoff_base_seconds
          s.backoff_max_seconds (attempt + j.succ))]) =
        (fun j : Nat => [CrawlEffect.fetchPage url,
          CrawlEffect.sleep (_backoff_seconds s.backoff_base_seconds
            s.backoff_max_seconds (attempt + 1 + j))]) := by
      funext j
      have e : attempt + j.succ = attempt + 1 + j := by omega
      rw [e]
    rw [List.range_succ_eq_map, List.flatMap_cons, List.flatMap_map, hf, ← ih]
    simp [blockedBackoffTrace]

/-- When every one of the `remaining` attempts is judged blocked, the
retry loop returns no html, the reason of its last attempt, the
alternating fetch/sleep trace, and advances the call counter past every
attempt. -/
theorem firstPageLoop_all_blocked (env : CrawlEnv) (s : CrawlSettings)
    (url : String) :
    ∀ (remaining attempt callIdx : Nat) (lastR : Option String),
      (∀ j, j < remaining →
        (detect_blocked (some (env.fetch (callIdx + j)).1)
            (some (env.fetch (callIdx + j)).2.1)).blocked = true) →
      firstPageLoop env s url remaining attempt callIdx lastR =
        (none,
         (if remaining = 0 then lastR
          else some (env.fetch (callIdx + (remaining - 1))).2.2),
         blockedBackoffTrace s url remaining attempt,
         callIdx + remaining) := by
  intro remaining
  induction remaining with
  | zero =>
    intro attempt callIdx lastR _
    simp [firstPageLoop, blockedBackoffTrace]
  | succ n ih =>
    intro attempt callIdx lastR h
    have h0 : (detect_blocked (some (env.fetch callIdx).1)
        (some (env.fetch callIdx).2.1)).blocked = true := by
      simpa using h 0 (Nat.succ_pos n)
    have hrest : ∀ j, j < n →
        (detect_blocked (some (env.fetch (callIdx + 1 + j)).1)
            (some (env.fetch (callIdx + 1 + j)).2.1)).blocked = true := by
      intro j hj
      have := h (j + 1) (by omega)
      simpa [Nat.add_assoc, Nat.add_comm 1 j] using this
    simp only [firstPageLoop]
    rw [ih (attempt + 1) (callIdx + 1) (some (env.fetch callIdx).2.2) hrest]
    simp only [h0, Bool.not_true, Bool.false_eq_true, if_false,
      blockedBackoffTrace]
    cases n with
    | zero => simp
    | succ m =>
      simp only [Nat.succ_ne_zero, if_false]
      have e1 : callIdx + 1 + (m + 1 - 1) = callIdx + (m + 1 + 1 - 1) := by omega
      have e2 : callIdx + 1 + (m + 1) = callIdx + (m + 1 + 1) := by omega
      rw [e1, e2]

/-- C4: when storage has no data for today and the first page is judged
blocked on all `blocked_max_retry + 1` attempts, `crawl_keyword` fetches
once and sleeps `backoff(attempt)` after each blocked attempt, then
returns normally (no exception — the function is total and yields a
value) with `blocked = true`, the last attempt's reason, and zero pages
fetched and rows upserted. -/
theorem first_page_blocked_all_attempts (env : CrawlEnv) (s : CrawlSettings)
    (kw : String) (hnot : env.existsToday = false)
    (hblocked : ∀ j, j ≤ s.blocked_max_retry →
        (detect_blocked (some (env.fetch j).1)
            (some (env.fetch j).2.1)).blocked = true) :
    crawl_keyword env s kw =
      ({ keyword := kw, pages_total := 0, pages_fetched := 0, rows_parsed := 0,
         rows_upserted := 0, blocked := true,
         blocked_reason := some (env.fetch s.blocked_max_retry).2.2 },
       (List.range (s.blocked_max_retry + 1)).flatMap (fun j =>
         [.fetchPage (build_search_url env.quoteKw kw),
          .sleep (_backoff_seconds s.backoff_base_seconds s.backoff_max_seconds
            j)])) := by
  have hB : ∀ j, j < s.blocked_max_retry + 1 →
      (detect_blocked (some (env.fetch (0 + j)).1)
          (some (env.fetch (0 + j)).2.1)).blocked = true := by
    intro j hj
    simpa using hblocked j (by omega)
  simp only [crawl_keyword, hnot, Bool.false_eq_true, if_false]
  rw [firstPageLoop_all_blocked env s (build_search_url env.quoteKw kw)
      (s.blocked_max_retry + 1) 0 0 none hB]
  simp only [Nat.succ_ne_zero, if_false, Nat.zero_add, Nat.add_sub_cancel]
  rw [blockedBackoffTrace_eq_flatMap]
  simp [Nat.zero_add]

/-- Witness for C4: every attempt of `envAllBlocked` returns HTTP 403,
and the crawl of one keyword under the default settings terminates
blocked with the last reason after three fetch/sleep rounds. -/
theorem first_page_blocked_all_attempts_witness :
    crawl_keyword envAllBlocked defaultCrawlSettings "鹅" =
      ({ keyword := "鹅", pages_total := 0, pages_fetched := 0, rows_parsed := 0,
         rows_upserted := 0, blocked := true,
         blocked_reason :=
           some (envAllBlocked.fetch defaultCrawlSettings.blocked_max_retry).2.2 },
       (List.range (defaultCrawlSettings.blocked_max_retry + 1)).flatMap (fun j =>
         [.fetchPage (build_search_url envAllBlocked.quoteKw "鹅"),
          .sleep (_backoff_seconds defaultCrawlSettings.backoff_base_seconds
            defaultCrawlSettings.backoff_max_seconds j)])) :=
  first_page_blocked_all_attempts envAllBlocked defaultCrawlSettings "鹅" rfl
    (by decide)

/- ===== C2 : cancellation between keywords (corrected) ===== -/

/-- `applyStatusUpdate` always installs the requested status. -/
theorem applyStatusUpdate_status (t : TaskInfo) (now : Nat) (st : TaskStatus)
    (ck : Option String) (ki : Option Nat) (er : Option String) :
    (applyStatusUpdate t now st ck ki er).status = st := by
  unfold applyStatusUpdate
  cases ck <;> cases ki <;> cases er <;> dsimp only <;>
    (split
     · rfl
     · split
       · split <;> rfl
       · rfl)

/-- `applyStatusUpdate` never touches the results sequence. -/
theorem applyStatusUpdate_results (t : TaskInfo) (now : Nat) (st : TaskStatus)
    (ck : Option String) (ki : Option Nat) (er : Option String) :
    (applyStatusUpdate t now st ck ki er).results = t.results := by
  unfold applyStatusUpdate
  cases ck <;> cases ki <;> cases er <;> dsimp only <;>
    (split
     · rfl
     · split
       · split <;> rfl
       · rfl)

/-- Looking a present job up after `update_task_status` yields the updated
record. -/
theorem update_status_get (tm : TaskManagerState) (now : Nat) (tid : String)
    (st : TaskStatus) (ck : Option String) (ki : Option Nat) (er : Option String)
    (t : TaskInfo) (hget : tmGet tm tid = some t) :
    tmGet (update_task_status tm now tid st ck ki er).2 tid =
      some (applyStatusUpdate t now st ck ki er) := by
  rw [update_task_status_found tm now tid st ck ki er t hget]
  exact tmGet_tmReplace tm tid t _ hget

/-- Looking a present job up after `append_log` yields the record with the
line appended. -/
theorem append_log_get (tm : TaskManagerState) (tid : String) (msg : String)
    (t : TaskInfo) (hget : tmGet tm tid = some t) :
    tmGet (append_log tm tid msg).2 tid =
      some { t with logs := append_log_list tm.max_stored_logs t.logs msg } := by
  rw [append_log_found tm tid msg t hget]
  exact tmGet_tmReplace tm tid t _ hget

/-- Existential form of `update_status_get`, carrying the status and
results facts needed to track a job across worker steps. -/
theorem update_status_step (tm : TaskManagerState) (now : Nat) (tid : String)
    (st : TaskStatus) (ck : Option String) (ki : Option Nat) (er : Option String)
    (t : TaskInfo) (hget : tmGet tm tid = some t) :
    ∃ u, tmGet (update_task_status tm now tid st ck ki er).2 tid = some u ∧
      u.status = st ∧ u.results = t.results :=
  ⟨_, update_status_get tm now tid st ck ki er t hget,
    applyStatusUpdate_status t now st ck ki er,
    applyStatusUpdate_results t now st ck ki er⟩

/-- Existential form of `append_log_get`: appending a log line changes
neither status nor results. -/
theorem append_log_step (tm : TaskManagerState) (tid : String) (msg : String)
    (t : TaskInfo) (hget : tmGet tm tid = some t) :
    ∃ u, tmGet (append_log tm tid msg).2 tid = some u ∧
      u.status = t.status ∧ u.results = t.results :=
  ⟨_, append_log_get tm tid msg t hget, rfl, rfl⟩

/-- The interleaving in which the HTTP cancel endpoint fires exactly at
the boundary before keyword index 1 (i.e. between keyword 1 and
keyword 2). -/
@[reducible] def cancelAt1 (cnow : Nat) (tid : String) :
    Nat → TaskManagerState → TaskManagerState :=
  fun i tmx => if i = 1 then (cancel_task tmx cnow tid).2 else tmx

/-- On a running job the cancel endpoint reduces to the status update
plus the cancellation log line. -/
theorem cancel_task_snd_of_active (tmx : TaskManagerState) (cnow : Nat)
    (tid : String) (t : TaskInfo) (hg : tmGet tmx tid = some t)
    (hs : t.status = .running) :
    (cancel_task tmx cnow tid).2 =
      (append_log (update_task_status tmx cnow tid .cancelled none none none).2
        tid "任务已被用户取消").2 := by
  simp only [cancel_task, hg]
  rw [if_neg (by simp [hs])]

/-- One iteration of the worker loop with the worker-shutdown flag up:
since the crawl call passes the unsupported `force_restart` keyword
argument, it raises `TypeError`, so the iteration appends its progress
and failure log lines and recurses — no result is recorded. -/
theorem execLoop_cons_typeError (cs : CrawlSettings) (envs : Nat → CrawlEnv)
    (external : Nat → TaskManagerState → TaskManagerState)
    (now : Nat) (tid : String) (force : Bool) (n : Nat) (kw : String)
    (rest : List String) (idx : Nat) (tm tmx : TaskManagerState)
    (hx : external idx tm = tmx) :
    execLoop cs envs (fun _ => true) external now tid force n (kw :: rest) idx tm =
      execLoop cs envs (fun _ => true) external now tid force n rest (idx + 1)
        ((append_log
          ((append_log
            ((update_task_status tmx now tid .running (some kw) (some idx) none).2)
            tid ("[" ++ toString (idx + 1) ++ "/" ++ toString n ++ "] 开始爬取关键词：" ++ kw)).2)
          tid (failMsg idx n kw "force_restart")).2) := by
  simp only [execLoop, hx]
  have hcall : call_crawl_keyword (envs idx) cs kw [("force_restart", force)] =
      .typeError "force_restart" := rfl
  rw [hcall]
  simp only [Bool.not_true, Bool.false_eq_true, if_false]

/-- Once the remaining cross-thread events are trivial, the worker loop
runs every remaining keyword (each failing with the `TypeError`), records
no result, and finally marks the job `Completed`. -/
theorem execLoop_completes_and_adds_no_result
    (cs : CrawlSettings) (envs : Nat → CrawlEnv)
    (external : Nat → TaskManagerState → TaskManagerState)
    (now : Nat) (tid : String) (force : Bool) (n : Nat) :
    ∀ (kws : List String) (idx : Nat) (tm : TaskManagerState) (t : TaskInfo),
      tmGet tm tid = some t →
      (∀ (i : Nat) (tm2 : TaskManagerState), idx ≤ i → external i tm2 = tm2) →
      ∃ t2, tmGet (execLoop cs envs (fun _ => true) external now tid force n
          kws idx tm) tid = some t2 ∧
        t2.status = .completed ∧ t2.results = t.results := by
  intro kws
  induction kws with
  | nil =>
    intro idx tm t hget _hext
    simp only [execLoop]
    have hno : ¬((none : Option String) ≠ none) := by simp
    rw [if_neg hno, if_neg hno]
    have g1 := update_status_get tm now tid .completed none (some n) none t hget
    have g2 := append_log_get _ tid
      ("任务完成，共处理 " ++ toString n ++ " 个关键词") _ g1
    exact ⟨_, g2, applyStatusUpdate_status t now .completed none (some n) none,
      applyStatusUpdate_results t now .completed none (some n) none⟩
  | cons kw rest ih =>
    intro idx tm t hget hext
    simp only [execLoop]
    rw [hext idx tm le_rfl]
    simp only [Bool.not_true, Bool.false_eq_true, if_false]
    have hcall : call_crawl_keyword (envs idx) cs kw [("force_restart", force)] =
        .typeError "force_restart" := rfl
    rw [hcall]
    try dsimp only
    obtain ⟨u1, h1, _, hr1⟩ := update_status_step tm now tid
      .running (some kw) (some idx) none t hget
    obtain ⟨u2, h2, _, hr2⟩ := append_log_step _ tid
      ("[" ++ toString (idx + 1) ++ "/" ++ toString n ++ "] 开始爬取关键词：" ++ kw) u1 h1
    obtain ⟨u3, h3, _, hr3⟩ := append_log_step _ tid
      (failMsg idx n kw "force_restart") u2 h2
    obtain ⟨t2, hg, hs, hr⟩ := ih (idx + 1) _ _ h3
      (fun i tm2 hi => hext i tm2 (by omega))
    exact ⟨t2, hg, hs, hr.trans (hr3.trans (hr2.trans hr1))⟩

/-- A pending two-keyword job, created without forced restart. -/
def c2job : TaskInfo :=
  { task_id := "t1", keywords := ["鹅", "玉米"], status := .pending, created_at := 0,
    started_at := none, completed_at := none, current_keyword := none,
    keyword_index := 0, total_keywords := 2, force_restart := false,
    logs := [], results := [], error := none }

/-- A registry holding `c2job` with the default bounds. -/
def c2tm : TaskManagerState :=
  { tasks := [("t1", c2job)], max_stored_logs := 1000, max_stored_tasks := 100 }

/-- The registry after the worker executes `c2job` while the cancel
endpoint fires between keyword 1 and keyword 2. -/
def c2final : TaskManagerState :=
  executeTask defaultCrawlSettings (fun _ => envSkip) (fun _ => true)
    (cancelAt1 5 "t1") 3 c2tm c2job

/-- Counterexample to C2 as stated: the cancel endpoint does run between
the two keywords (its log line is present), yet the job finishes in
status `Completed`, not `Cancelled`, and carries zero results rather than
exactly one — the worker loop never polls the job's cancellation and its
final update overwrites the status. -/
theorem cancel_between_keywords_counterexample :
    (tmGet c2final "t1").map TaskInfo.status = some .completed ∧
    ¬((tmGet c2final "t1").map TaskInfo.status = some .cancelled) ∧
    (tmGet c2final "t1").map (fun t => t.results.length) = some 0 ∧
    (tmGet c2final "t1").map (fun t => t.logs.contains "任务已被用户取消") =
      some true := by
  decide

/-- C2 amended: cancelling between keyword 1 and keyword 2 marks the job
`Cancelled` at that instant (cancel is accepted while the job is
`Running`), but the worker loop checks only its own shutdown flag, not
the job's status: keyword 2 is processed as well, and the loop's final
update overwrites the job to `Completed`.  Moreover no result at all is
recorded — each per-keyword crawl call passes the unsupported
`force_restart` keyword argument and dies with a `TypeError` — so the job
ends `Completed` with its results unchanged, not `Cancelled` with
keyword 1's result. -/
theorem cancel_between_keywords_ignored
    (cs : CrawlSettings) (envs : Nat → CrawlEnv) (now cnow : Nat)
    (tm : TaskManagerState) (job : TaskInfo) (k1 k2 : String)
    (rest : List String)
    (hkw : job.keywords = k1 :: k2 :: rest)
    (hget : tmGet tm job.task_id = some job) :
    (∀ (tmx : TaskManagerState) (t : TaskInfo),
        tmGet tmx job.task_id = some t → t.status = .running →
        (cancel_task tmx cnow job.task_id).1 = .cancelled ∧
        ∃ tc, tmGet (cancel_task tmx cnow job.task_id).2 job.task_id = some tc ∧
          tc.status = .cancelled) ∧
    (∃ tf, tmGet (executeTask cs envs (fun _ => true)
          (cancelAt1 cnow job.task_id) now tm job) job.task_id = some tf ∧
        tf.status = .completed ∧ tf.results = job.results) := by
  constructor
  · intro tmx t hg hrun
    have hcond : ¬(t.status ≠ TaskStatus.pending ∧ t.status ≠ TaskStatus.running) := by
      simp [hrun]
    constructor
    · simp only [cancel_task, hg]
      rw [if_neg hcond]
    · rw [cancel_task_snd_of_active tmx cnow job.task_id t hg hrun]
      obtain ⟨u, hu, hsu, _⟩ := update_status_step tmx cnow job.task_id
        .cancelled none none none t hg
      obtain ⟨v, hv, hsv, _⟩ := append_log_step _ job.task_id "任务已被用户取消" u hu
      exact ⟨v, hv, hsv.trans hsu⟩
  · simp only [executeTask, hkw]
    rw [execLoop_cons_typeError cs envs (cancelAt1 cnow job.task_id) now job.task_id
      job.force_restart (k1 :: k2 :: rest).length k1 (k2 :: rest) 0 _ _
      (if_neg (by norm_num))]
    obtain ⟨u0, h0, hs0, hr0⟩ := update_status_step tm now job.task_id
      .running none (some 0) none job hget
    obtain ⟨u1, h1, hs1, hr1⟩ := append_log_step _ job.task_id
      ("任务开始执行（" ++ (if job.force_restart then "重新爬取" else "断点续爬")
        ++ "），共 " ++ toString (k1 :: k2 :: rest).length ++ " 个关键词") u0 h0
    obtain ⟨u2, h2, hs2, hr2⟩ := update_status_step _ now job.task_id
      .running (some k1) (some 0) none u1 h1
    obtain ⟨u3, h3, hs3, hr3⟩ := append_log_step _ job.task_id
      ("[" ++ toString (0 + 1) ++ "/" ++ toString (k1 :: k2 :: rest).length
        ++ "] 开始爬取关键词：" ++ k1) u2 h2
    obtain ⟨u4, h4, hs4, hr4⟩ := append_log_step _ job.task_id
      (failMsg 0 (k1 :: k2 :: rest).length k1 "force_restart") u3 h3
    have hu4run : u4.status = .running := hs4.trans (hs3.trans hs2)
    rw [execLoop_cons_typeError cs envs (cancelAt1 cnow job.task_id) now job.task_id
      job.force_restart (k1 :: k2 :: rest).length k2 rest (0 + 1) _ _
      ((if_pos (by norm_num)).trans
        (cancel_task_snd_of_active _ cnow job.task_id u4 h4 hu4run))]
    obtain ⟨u5, h5, hs5, hr5⟩ := update_status_step _ cnow job.task_id
      .cancelled none none none u4 h4
    obtain ⟨u6, h6, hs6, hr6⟩ := append_log_step _ job.task_id "任务已被用户取消" u5 h5
    obtain ⟨u7, h7, hs7, hr7⟩ := update_status_step _ now job.task_id
      .running (some k2) (some (0 + 1)) none u6 h6
    obtain ⟨u8, h8, hs8, hr8⟩ := append_log_step _ job.task_id
      ("[" ++ toString (0 + 1 + 1) ++ "/" ++ toString (k1 :: k2 :: rest).length
        ++ "] 开始爬取关键词：" ++ k2) u7 h7
    obtain ⟨u9, h9, hs9, hr9⟩ := append_log_step _ job.task_id
      (failMsg (0 + 1) (k1 :: k2 :: rest).length k2 "force_restart") u8 h8
    have hextTriv : ∀ (i : Nat) (tmx : TaskManagerState), 0 + 1 + 1 ≤ i →
        cancelAt1 cnow job.task_id i tmx = tmx := by
      intro i tmx hi
      simp only [cancelAt1]
      rw [if_neg (by omega)]
    obtain ⟨tf, hg, hs, hr⟩ := execLoop_completes_and_adds_no_result cs envs
      (cancelAt1 cnow job.task_id) now job.task_id job.force_restart
      (k1 :: k2 :: rest).length rest (0 + 1 + 1) _ u9 h9 hextTriv
    exact ⟨tf, hg, hs, hr.trans (hr9.trans (hr8.trans (hr7.trans (hr6.trans
      (hr5.trans (hr4.trans (hr3.trans (hr2.trans (hr1.trans hr0)))))))))⟩

/-- Witness for C2's amended theorem on the concrete two-keyword job. -/
theorem cancel_between_keywords_ignored_witness :
    (∀ (tmx : TaskManagerState) (t : TaskInfo),
        tmGet tmx c2job.task_id = some t → t.status = .running →
        (cancel_task tmx 5 c2job.task_id).1 = .cancelled ∧
        ∃ tc, tmGet (cancel_task tmx 5 c2job.task_id).2 c2job.task_id = some tc ∧
          tc.status = .cancelled) ∧
    (∃ tf, tmGet (executeTask defaultCrawlSettings (fun _ => envSkip)
          (fun _ => true) (cancelAt1 5 c2job.task_id) 3 c2tm c2job)
        c2job.task_id = some tf ∧
        tf.status = .completed ∧ tf.results = c2job.results) :=
  cancel_between_keywords_ignored defaultCrawlSettings (fun _ => envSkip) 3 5
    c2tm c2job "鹅" "玉米" [] rfl rfl
